import Mathlib

/-!
Shallow embedding of `src/backend/main.py` (FastAPI "Weather Data System").

The backend has three entry points:
* `POST /weather` (`create_weather_request`): calls the WeatherStack provider,
  stores a combined record under a fresh uuid, returns the id;
* `GET /weather/{weather_id}` (`get_weather_data`): record lookup;
* the `/ws` websocket (`websocket_endpoint`): per-message summary generation
  through the Gemini provider (`generate_weather_summary`).

External effects (environment variable, provider HTTP responses, uuid
generation, wall clock, Gemini responses) are passed in as explicit inputs.
Python dicts keyed by strings become association lists (`List (String × _)`);
`dict[k] = v` is cons (first-match lookup gives insert-or-replace semantics),
`dict.get(k, d)` is `lookup` with a default.  Python exception flow is made
explicit: each handler body is a value of `Except`, and the `try/except`
ladder of `create_weather_request` is a dispatch on the kind of exception.
-/

namespace WeatherSystem

/-- Python truthiness of an optional string as used in `if not api_key:` and
`notes if notes else ...`: `None` and the empty string are falsy. -/
def pyFalsy : Option String → Bool
  | none => true
  | some s => s = ""

/-- `fastapi.HTTPException`: a status code plus a detail message. -/
structure HTTPError where
  status : Nat
  detail : String
deriving DecidableEq

/-- `str(e)` on an `HTTPException` renders as `f"{status_code}: {detail}"`
(starlette's `HTTPException.__str__`). -/
def httpExcStr (e : HTTPError) : String :=
  toString e.status ++ ": " ++ e.detail

/-- One stored entry of `weather_storage` (the dict built at lines 221-229).
`notes` is `Option String` because the pydantic field is `Optional[str]`;
the nested provider payloads are kept as string-keyed association lists. -/
structure WeatherRecord where
  id : String
  date : String
  location : String
  notes : Option String
  weather_data : List (String × String)
  location_info : List (String × String)
  created_at : String
deriving DecidableEq

/-- `weather_storage`: an in-memory dict from id to record. -/
abbrev Store := List (String × WeatherRecord)

/-- Keys of the storage dict. -/
def Store.keys (s : Store) : List String := s.map Prod.fst

/-- Dict lookup, `weather_storage[weather_id]` / `weather_id in weather_storage`. -/
def Store.find (s : Store) (k : String) : Option WeatherRecord :=
  s.lookup k

/-- The provider error object `weather_data["error"]`, with its optional
`code` and `info` fields. -/
structure ProviderError where
  code : Option Int
  info : Option String
deriving DecidableEq

/-- The decoded WeatherStack response body: an optional `error` section and
the optional `current` / `location` payload sections. -/
structure ProviderBody where
  error : Option ProviderError
  current : Option (List (String × String))
  location : Option (List (String × String))
deriving DecidableEq

/-- Outcome of `requests.get(weather_api_url, ..., timeout=10)` followed by
`raise_for_status()` and `.json()`: a timeout, some other
`requests.exceptions.RequestException` (connection failure or HTTP error
status), or a decoded JSON body. -/
inductive ProviderOutcome
  | timeout
  | reqError (msg : String)
  | ok (body : ProviderBody)
deriving DecidableEq

/-- Everything `create_weather_request` reads from the outside world, plus the
parsed request body. `env` is `os.getenv("WEATHERSTACK_API_KEY")`; `fresh` is
`str(uuid.uuid4())`; `now` is `datetime.now().isoformat()`; `notes` is the
pydantic-parsed `Optional[str]` field. -/
structure CreateInput where
  env : Option String
  fresh : String
  now : String
  date : String
  location : String
  notes : Option String
  provider : ProviderOutcome
deriving DecidableEq

/-- The pydantic field `notes: Optional[str] = ""` of `WeatherRequest`: the
JSON field may be absent (default `""`), explicit `null` (`None`), or a
string. -/
inductive NotesField
  | absent
  | null
  | str (s : String)
deriving DecidableEq

/-- Pydantic parsing of the `notes` field of `WeatherRequest`. -/
def parseNotes : NotesField → Option String
  | .absent => some ""
  | .null => none
  | .str s => some s

/-- Kinds of exception escaping the `try` body of `create_weather_request`:
an explicitly raised `HTTPException`, `requests.exceptions.Timeout`, or
another `requests.exceptions.RequestException`. -/
inductive PyExc
  | http (e : HTTPError)
  | timeout
  | reqErr (msg : String)
deriving DecidableEq

/-- The record dict stored at lines 221-229 on the success path. -/
def mkRecord (inp : CreateInput) (body : ProviderBody) : WeatherRecord :=
  { id := inp.fresh
    date := inp.date
    location := inp.location
    notes := inp.notes
    weather_data := body.current.getD []
    location_info := body.location.getD []
    created_at := inp.now }

/-- The `try` body of `create_weather_request` (lines 182-231): credential
check, provider call, provider-error check, store and return the fresh id.
An `Except.error` is an exception escaping the `try` body. -/
def createWeatherBody (inp : CreateInput) (store : Store) :
    Except PyExc (Store × String) :=
  if pyFalsy inp.env then
    .error (.http ⟨500, "WeatherStack API key not configured. Please set WEATHERSTACK_API_KEY environment variable or create a .env file in the backend directory."⟩)
  else
    match inp.provider with
    | .timeout => .error .timeout
    | .reqError m => .error (.reqErr m)
    | .ok body =>
      match body.error with
      | some err =>
        if err.code = some 615 then
          .error (.http ⟨400, "Location '" ++ inp.location ++ "' not found. Please check the spelling and try again."⟩)
        else
          .error (.http ⟨400, "Weather API error: " ++ err.info.getD "Unknown error"⟩)
      | none =>
        .ok ((inp.fresh, mkRecord inp body) :: store, inp.fresh)

/-- `create_weather_request`, including its `except` ladder (lines 233-247).
A raised `HTTPException` is itself an `Exception`, so it is caught by the
final blanket `except Exception` clause and re-raised as a 500 whose detail
wraps `str(e)`.  Returns the (possibly extended) store together with either
the response id or the `HTTPException` surfaced to the client. -/
def createWeather (inp : CreateInput) (store : Store) :
    Store × Except HTTPError String :=
  match createWeatherBody inp store with
  | .ok (store', wid) => (store', .ok wid)
  | .error .timeout =>
    (store, .error ⟨408, "Weather API request timed out. Please try again."⟩)
  | .error (.reqErr m) =>
    (store, .error ⟨500, "Error connecting to weather service: " ++ m⟩)
  | .error (.http e) =>
    (store, .error ⟨500, "Unexpected error: " ++ httpExcStr e⟩)

/-- `get_weather_data` (lines 249-258): pure lookup; 404 when absent. -/
def getWeatherData (store : Store) (weather_id : String) :
    Except HTTPError WeatherRecord :=
  match store.find weather_id with
  | none => .error ⟨404, "Weather data not found"⟩
  | some r => .ok r

/-- `weather_info.get(k, dflt)` with string-rendered values. -/
def pyGet (d : List (String × String)) (k dflt : String) : String :=
  (d.lookup k).getD dflt

/-- The Gemini prompt f-string of `generate_weather_summary` (lines 80-103),
rendered exactly (leading newline, 8-space indentation, trailing indent).
`weather_info` is `weather_data.get("weather_data", {})`, the stored
`current` section. -/
def buildPrompt (location date : String) (notes : Option String)
    (weather_info : List (String × String)) : String :=
  "\n        Generate a concise, friendly weather summary for " ++ location
    ++ " on " ++ date ++ ".\n        \n        Weather conditions:\n        - Temperature: "
    ++ pyGet weather_info "temperature" "N/A" ++ "°F\n        - Feels like: "
    ++ pyGet weather_info "feels_like" "N/A" ++ "°F\n        - Conditions: "
    ++ pyGet weather_info "description" "N/A" ++ "\n        - Humidity: "
    ++ pyGet weather_info "humidity" "N/A" ++ "%\n        - Wind: "
    ++ pyGet weather_info "wind_speed" "N/A" ++ " mph "
    ++ pyGet weather_info "wind_direction" "" ++ " ("
    ++ pyGet weather_info "wind_degree" "N/A" ++ "°)\n        - Visibility: "
    ++ pyGet weather_info "visibility" "N/A" ++ " miles\n        - Pressure: "
    ++ pyGet weather_info "pressure" "N/A" ++ " mb\n        - UV Index: "
    ++ pyGet weather_info "uv_index" "N/A" ++ "\n        - Cloud Cover: "
    ++ pyGet weather_info "cloudcover" "N/A" ++ "%\n        - Precipitation: "
    ++ pyGet weather_info "precip" "N/A" ++ " mm\n        - Time of Day: "
    ++ (if pyGet weather_info "is_day" "" = "yes" then "Daytime" else "Nighttime")
    ++ "\n        \n        Location: "
    ++ pyGet weather_info "location_name" "N/A" ++ ", "
    ++ pyGet weather_info "region" "N/A" ++ ", "
    ++ pyGet weather_info "country" "N/A" ++ "\n        Coordinates: "
    ++ pyGet weather_info "lat" "N/A" ++ ", "
    ++ pyGet weather_info "lon" "N/A" ++ "\n        Timezone: "
    ++ pyGet weather_info "timezone" "N/A" ++ "\n        \n        User notes: "
    ++ (if pyFalsy notes then "None provided" else notes.getD "")
    ++ "\n        \n        Please provide a 3-4 sentence summary that's conversational and helpful for planning outdoor activities, including insights about the weather conditions and any notable factors.\n        "

/-- Modelled from the spec: the same prompt template as `buildPrompt`, but
following the spec's sentence "missing attributes render as a placeholder
\"N/A\"" for every listed weather attribute, wind direction included.  Used
only to compare the code's template against the spec's wording. -/
def buildPromptSpec (location date : String) (notes : Option String)
    (weather_info : List (String × String)) : String :=
  "\n        Generate a concise, friendly weather summary for " ++ location
    ++ " on " ++ date ++ ".\n        \n        Weather conditions:\n        - Temperature: "
    ++ pyGet weather_info "temperature" "N/A" ++ "°F\n        - Feels like: "
    ++ pyGet weather_info "feels_like" "N/A" ++ "°F\n        - Conditions: "
    ++ pyGet weather_info "description" "N/A" ++ "\n        - Humidity: "
    ++ pyGet weather_info "humidity" "N/A" ++ "%\n        - Wind: "
    ++ pyGet weather_info "wind_speed" "N/A" ++ " mph "
    ++ pyGet weather_info "wind_direction" "N/A" ++ " ("
    ++ pyGet weather_info "wind_degree" "N/A" ++ "°)\n        - Visibility: "
    ++ pyGet weather_info "visibility" "N/A" ++ " miles\n        - Pressure: "
    ++ pyGet weather_info "pressure" "N/A" ++ " mb\n        - UV Index: "
    ++ pyGet weather_info "uv_index" "N/A" ++ "\n        - Cloud Cover: "
    ++ pyGet weather_info "cloudcover" "N/A" ++ "%\n        - Precipitation: "
    ++ pyGet weather_info "precip" "N/A" ++ " mm\n        - Time of Day: "
    ++ (if pyGet weather_info "is_day" "" = "yes" then "Daytime" else "Nighttime")
    ++ "\n        \n        Location: "
    ++ pyGet weather_info "location_name" "N/A" ++ ", "
    ++ pyGet weather_info "region" "N/A" ++ ", "
    ++ pyGet weather_info "country" "N/A" ++ "\n        Coordinates: "
    ++ pyGet weather_info "lat" "N/A" ++ ", "
    ++ pyGet weather_info "lon" "N/A" ++ "\n        Timezone: "
    ++ pyGet weather_info "timezone" "N/A" ++ "\n        \n        User notes: "
    ++ (if pyFalsy notes then "None provided" else notes.getD "")
    ++ "\n        \n        Please provide a 3-4 sentence summary that's conversational and helpful for planning outdoor activities, including insights about the weather conditions and any notable factors.\n        "

/-- Outcome of `model.generate_content(prompt)` as observed by the `try` of
`generate_weather_summary`: either a response whose `.text` is a (possibly
empty) string, or an exception with message `msg` raised anywhere inside the
`try` (configure, model construction, or the call itself). -/
inductive GenOutcome
  | output (text : String)
  | exc (msg : String)
deriving DecidableEq

/-- The Gemini provider as an oracle from prompt to outcome. -/
def GenOracle := String → GenOutcome

/-- `generate_weather_summary` (lines 64-114): build the prompt, call the
provider; a non-empty `.text` is stripped and returned, an empty one yields
the fixed fallback sentence, and an exception is re-raised wrapped as
`"Error generating summary: " + str(e)`. -/
def generateWeatherSummary (rec : WeatherRecord) (gen : GenOracle) :
    Except String String :=
  match gen (buildPrompt rec.location rec.date rec.notes rec.weather_data) with
  | .output t =>
    if t ≠ "" then .ok t.trim
    else .ok "Unable to generate weather summary at this time."
  | .exc e => .error ("Error generating summary: " ++ e)

/-- A decoded JSON value as produced by `json.loads`.  Numbers are kept as
integers: the handler only ever tests values for truthiness, hashability and
equality with a string key, and no float-specific behaviour is reachable.
JSON arrays and objects decode to Python lists and dicts — the unhashable
values. -/
inductive JsonVal
  | str (s : String)
  | num (n : Int)
  | bool (b : Bool)
  | null
  | arr (elems : List JsonVal)
  | obj (fields : List (String × JsonVal))

/-- Python truthiness of a decoded JSON value (`if not api_key:`):
`None`, `""`, `0`, `False` and empty containers are falsy. -/
def JsonVal.truthy : JsonVal → Bool
  | .str s => !s.isEmpty
  | .num n => decide (n ≠ 0)
  | .bool b => b
  | .null => false
  | .arr l => !l.isEmpty
  | .obj l => !l.isEmpty

/-- Whether the Python value of a decoded JSON value is hashable: lists and
dicts (JSON arrays/objects) are not, so using one as a dict key raises
`TypeError`. -/
def JsonVal.hashable : JsonVal → Bool
  | .arr _ => false
  | .obj _ => false
  | _ => true

/-- `message.get(k)`: an absent field yields Python `None`, exactly like an
explicit JSON `null` value. -/
def fieldVal : Option JsonVal → JsonVal :=
  fun v => v.getD .null

/-- `message.get("type") == "generate_summary"`: only the equal string
compares equal; a value of any other shape never does. -/
def isGenerateSummary : JsonVal → Bool
  | .str s => s = "generate_summary"
  | _ => false

/-- One incoming websocket frame after `json.loads`: either the payload was
not a JSON object (`json.loads` raises on non-JSON text, `.get` raises
`AttributeError` on a non-dict value — both escape the handler), or a JSON
object read through its optional `type` / `weather_id` / `api_key` fields,
each an arbitrary JSON value when present. -/
inductive ClientMsg
  | malformed
  | obj (type weather_id api_key : Option JsonVal)

/-- Messages the server sends on the channel (lines 129-167). -/
inductive ServerMsg
  | summaryResult (summary : String) (weather_id : String)
  | summaryError (error : String)
deriving DecidableEq

/-- Whether a server message is an error message. -/
def ServerMsg.isError : ServerMsg → Bool
  | .summaryResult _ _ => false
  | .summaryError _ => true

/-- Fate of the session after handling one frame: the loop either reaches
`await websocket.receive_text()` again, or an uncaught exception escapes the
`while` loop (only `WebSocketDisconnect` is caught outside it) and the
connection is torn down. -/
inductive StepStatus
  | cont
  | crashed
deriving DecidableEq

/-- One iteration of the `while True` loop of `websocket_endpoint`
(lines 120-167): the messages sent in response to one frame, and whether the
loop survives to await the next frame.  The api-key truthiness test
(line 128) runs first; then `weather_id not in weather_storage` (line 138)
hashes the value — an unhashable `weather_id` (JSON array/object) raises
`TypeError` there, which nothing inside the loop catches, so that iteration
crashes the session; a hashable non-string is simply never a key of the
string-keyed dict. -/
def processMessage (store : Store) (gen : GenOracle) :
    ClientMsg → List ServerMsg × StepStatus
  | .malformed => ([], .crashed)
  | .obj type weather_id api_key =>
    if isGenerateSummary (fieldVal type) then
      if (fieldVal api_key).truthy = false then
        ([.summaryError "Gemini API key is required"], .cont)
      else if (fieldVal weather_id).hashable = false then
        ([], .crashed)
      else
        match fieldVal weather_id with
        | .str wid =>
          match store.find wid with
          | none => ([.summaryError "Weather data not found"], .cont)
          | some rec =>
            match generateWeatherSummary rec gen with
            | .ok summary => ([.summaryResult summary wid], .cont)
            | .error e => ([.summaryError e], .cont)
        | _ => ([.summaryError "Weather data not found"], .cont)
    else ([], .cont)

/-- The exact message contents that end a session (read off lines 120-167):
a frame that is not a JSON object, or a summary request that passes the
api-key check and carries an unhashable `weather_id`. -/
def ClientMsg.crashes : ClientMsg → Bool
  | .malformed => true
  | .obj type weather_id api_key =>
    isGenerateSummary (fieldVal type)
      && (fieldVal api_key).truthy
      && !(fieldVal weather_id).hashable

/-- A whole session over a finite sequence of frames: frames are handled in
order until the client disconnects (end of list) or an iteration crashes.
Returns all messages sent and whether the loop ever crashed. -/
def runSession (store : Store) (gen : GenOracle) :
    List ClientMsg → List ServerMsg × StepStatus
  | [] => ([], .cont)
  | m :: rest =>
    match processMessage store gen m with
    | (out, .crashed) => (out, .crashed)
    | (out, .cont) =>
      let (out', st) := runSession store gen rest
      (out ++ out', st)

/-- A sequence of `POST /weather` calls threaded through the store, each with
its own environment/provider inputs.  Returns the final store and, per call,
the returned id (`none` when the call failed). -/
def runCreates (store : Store) : List CreateInput → Store × List (Option String)
  | [] => (store, [])
  | inp :: rest =>
    let (store', res) := createWeather inp store
    let (storeF, results) := runCreates store' rest
    (storeF, (match res with | .ok wid => some wid | .error _ => none) :: results)

/-- Whether a creation call succeeds; by lines 182-231 this depends only on
the credential and the provider response, never on the store. -/
def createOk (inp : CreateInput) : Bool :=
  !pyFalsy inp.env &&
    match inp.provider with
    | .ok body => body.error.isNone
    | _ => false

/-! ## Helper lemmas about the store and the creation handler -/

theorem Store.find_cons (k a : String) (r : WeatherRecord) (s : Store) :
    Store.find ((k, r) :: s) a = if a = k then some r else s.find a := by
  unfold Store.find
  rw [List.lookup_cons]
  by_cases h : a = k
  · simp [h]
  · have hb : (a == k) = false := beq_eq_false_iff_ne.mpr h
    simp [h, hb]

theorem Store.keys_cons (k : String) (r : WeatherRecord) (s : Store) :
    Store.keys ((k, r) :: s) = k :: s.keys := rfl

theorem Store.find_eq_none_of_not_mem {s : Store} {a : String}
    (h : a ∉ s.keys) : s.find a = none := by
  induction s with
  | nil => rfl
  | cons p t ih =>
    obtain ⟨k, r⟩ := p
    rw [Store.keys_cons] at h
    rw [Store.find_cons]
    simp only [List.mem_cons, not_or] at h
    rw [if_neg h.1]
    exact ih h.2

theorem Store.mem_keys_of_find_eq_some {s : Store} {a : String}
    {r : WeatherRecord} (h : s.find a = some r) : a ∈ s.keys := by
  by_contra hmem
  rw [Store.find_eq_none_of_not_mem hmem] at h
  exact Option.noConfusion h

/-- Destructing a successful `try` body: success happens exactly on the
no-error provider branch, and then the store gains one entry. -/
theorem createWeatherBody_ok {inp : CreateInput} {store store' : Store}
    {wid : String} (h : createWeatherBody inp store = .ok (store', wid)) :
    ∃ body, inp.provider = .ok body ∧ body.error = none ∧
      store' = (inp.fresh, mkRecord inp body) :: store ∧ wid = inp.fresh := by
  unfold createWeatherBody at h
  split at h
  · exact absurd h (by simp)
  · split at h
    · exact absurd h (by simp)
    · exact absurd h (by simp)
    · rename_i body heq
      split at h
      · split at h <;> exact absurd h (by simp)
      · rename_i herr
        refine ⟨body, heq, herr, ?_, ?_⟩ <;> cases h <;> rfl

/-- Every creation call either succeeds (no provider error, credential
present), appending exactly one record under the fresh id, or fails leaving
the store untouched. -/
theorem createWeather_cases (inp : CreateInput) (store : Store) :
    (∃ body, inp.provider = .ok body ∧ body.error = none ∧
      createWeather inp store =
        ((inp.fresh, mkRecord inp body) :: store, .ok inp.fresh))
    ∨ (∃ e, createWeather inp store = (store, .error e)) := by
  unfold createWeather
  cases hb : createWeatherBody inp store with
  | ok p =>
    obtain ⟨store', wid⟩ := p
    obtain ⟨body, hprov, herr, hstore, hwid⟩ := createWeatherBody_ok hb
    exact .inl ⟨body, hprov, herr, by rw [hstore, hwid]⟩
  | error e =>
    cases e with
    | http e => exact .inr ⟨_, rfl⟩
    | timeout => exact .inr ⟨_, rfl⟩
    | reqErr m => exact .inr ⟨_, rfl⟩

/-- A returned id is always the freshly generated uuid, and the new store is
the old one plus a record carrying the request fields verbatim. -/
theorem createWeather_ok_dest {inp : CreateInput} {store : Store}
    {wid : String} (h : (createWeather inp store).2 = .ok wid) :
    ∃ body, inp.provider = .ok body ∧ body.error = none ∧ wid = inp.fresh ∧
      (createWeather inp store).1 = (inp.fresh, mkRecord inp body) :: store := by
  rcases createWeather_cases inp store with ⟨body, hprov, herr, heq⟩ | ⟨e, heq⟩
  · rw [heq] at h ⊢
    exact ⟨body, hprov, herr, by exact (Except.ok.inj h).symm, rfl⟩
  · rw [heq] at h
    exact absurd h (by simp)

/-- The ids returned by a sequence of creations are (in order) among the
fresh uuids supplied to those calls. -/
theorem runCreates_ids_sublist (inputs : List CreateInput) (store : Store) :
    ((runCreates store inputs).2.filterMap id).Sublist
      (inputs.map fun i => i.fresh) := by
  induction inputs generalizing store with
  | nil => simp [runCreates]
  | cons inp rest ih =>
    rcases createWeather_cases inp store with ⟨body, _, _, heq⟩ | ⟨e, heq⟩
    · rcases hr : runCreates ((inp.fresh, mkRecord inp body) :: store) rest
        with ⟨sF, results⟩
      simp only [runCreates, heq, hr, List.map_cons, List.filterMap_cons, id]
      have := ih ((inp.fresh, mkRecord inp body) :: store)
      rw [hr] at this
      exact this.cons₂ _
    · rcases hr : runCreates store rest with ⟨sF, results⟩
      simp only [runCreates, heq, hr, List.map_cons, List.filterMap_cons, id]
      have := ih store
      rw [hr] at this
      exact this.cons _

/-- Every key of the store after a sequence of creations is either an old key
or one of the returned ids. -/
theorem runCreates_mem_keys {inputs : List CreateInput} {store : Store}
    {wid : String} (h : wid ∈ ((runCreates store inputs).1).keys) :
    wid ∈ store.keys ∨ wid ∈ (runCreates store inputs).2.filterMap id := by
  induction inputs generalizing store with
  | nil => exact .inl h
  | cons inp rest ih =>
    rcases createWeather_cases inp store with ⟨body, _, _, heq⟩ | ⟨e, heq⟩
    · rcases hr : runCreates ((inp.fresh, mkRecord inp body) :: store) rest
        with ⟨sF, results⟩
      simp only [runCreates, heq, hr, List.filterMap_cons, id] at h ⊢
      rcases @ih ((inp.fresh, mkRecord inp body) :: store) (by rw [hr]; exact h) with hold | hres
      · rw [Store.keys_cons, List.mem_cons] at hold
        rcases hold with hfr | hold
        · exact .inr (by rw [hfr]; exact List.mem_cons_self _ _)
        · exact .inl hold
      · rw [hr] at hres
        exact .inr (List.mem_cons_of_mem _ hres)
    · rcases hr : runCreates store rest with ⟨sF, results⟩
      simp only [runCreates, heq, hr, List.filterMap_cons, id] at h ⊢
      rcases @ih store (by rw [hr]; exact h) with hold | hres
      · exact .inl hold
      · rw [hr] at hres
        exact .inr hres

/-- The status after one loop iteration is `crashed` exactly on the message
contents captured by `ClientMsg.crashes`: every branch of the handler other
than the non-object frame and the unhashable-`weather_id` membership test
ends in `continue`. -/
theorem processMessage_snd (store : Store) (gen : GenOracle) (m : ClientMsg) :
    (processMessage store gen m).2
      = if ClientMsg.crashes m then StepStatus.crashed else StepStatus.cont := by
  cases m with
  | malformed => rfl
  | obj t w a =>
    simp only [processMessage, ClientMsg.crashes]
    repeat' split
    all_goals simp_all

/-! ## Claim theorems -/

/-- C5: Modelling `str(uuid.uuid4())` as an environment-supplied stream of
fresh identifiers (the spec's "collision probability negligible" 128-bit
random ids), over any sequence of creation calls whose supplied uuids are
pairwise distinct and unused: (1) any two successful creations return
distinct identifiers (the successfully returned ids form a duplicate-free
list); (2) every record in the store keeps a unique `id` key; (3) once
written, a record is never changed by later creations — lookups and channel
traffic never write at all. -/
theorem create_ids_unique_store_immutable (inputs : List CreateInput)
    (store : Store) (hfresh : (inputs.map fun i => i.fresh).Nodup)
    (hnew : ∀ i ∈ inputs, i.fresh ∉ store.keys) :
    ((runCreates store inputs).2.filterMap id).Nodup
    ∧ (store.keys.Nodup → ((runCreates store inputs).1).keys.Nodup)
    ∧ (∀ wid r, store.find wid = some r →
        (runCreates store inputs).1.find wid = some r) := by
  induction inputs generalizing store with
  | nil => simp [runCreates]
  | cons inp rest ih =>
    rw [List.map_cons, List.nodup_cons] at hfresh
    obtain ⟨hne, hfresh'⟩ := hfresh
    rcases createWeather_cases inp store with ⟨body, _, _, heq⟩ | ⟨e, heq⟩
    · rcases hr : runCreates ((inp.fresh, mkRecord inp body) :: store) rest
        with ⟨sF, results⟩
      have hnew' : ∀ i ∈ rest,
          i.fresh ∉ Store.keys ((inp.fresh, mkRecord inp body) :: store) := by
        intro i hi
        rw [Store.keys_cons, List.mem_cons, not_or]
        refine ⟨fun hcontra => hne ?_, hnew i (List.mem_cons_of_mem _ hi)⟩
        rw [← hcontra]
        exact List.mem_map_of_mem _ hi
      have ihres := ih _ hfresh' hnew'
      rw [hr] at ihres
      have hsub := runCreates_ids_sublist rest
        ((inp.fresh, mkRecord inp body) :: store)
      rw [hr] at hsub
      simp only [runCreates, heq, hr, List.filterMap_cons, id]
      refine ⟨List.nodup_cons.mpr ⟨fun hmem => hne (hsub.subset hmem), ihres.1⟩,
        ?_, ?_⟩
      · intro hkeys
        refine ihres.2.1 ?_
        rw [Store.keys_cons, List.nodup_cons]
        exact ⟨hnew inp (List.mem_cons_self _ _), hkeys⟩
      · intro wid r hfind
        refine ihres.2.2 wid r ?_
        rw [Store.find_cons, if_neg ?_]
        · exact hfind
        · intro hcontra
          exact hnew inp (List.mem_cons_self _ _)
            (hcontra ▸ Store.mem_keys_of_find_eq_some hfind)
    · rcases hr : runCreates store rest with ⟨sF, results⟩
      have ihres := ih _ hfresh' fun i hi => hnew i (List.mem_cons_of_mem _ hi)
      rw [hr] at ihres
      simp only [runCreates, heq, hr, List.filterMap_cons, id]
      exact ihres

/-- Witness for C5: two creations with identical request data but distinct
fresh uuids both succeed and return distinct ids. -/
theorem create_ids_unique_store_immutable_witness :
    ((([⟨some "KEY", "id-1", "t1", "2024-06-01", "Paris", some "picnic",
          .ok ⟨none, none, none⟩⟩,
        ⟨some "KEY", "id-2", "t1", "2024-06-01", "Paris", some "picnic",
          .ok ⟨none, none, none⟩⟩] : List CreateInput).map
        fun i => i.fresh).Nodup)
    ∧ ((runCreates []
        [⟨some "KEY", "id-1", "t1", "2024-06-01", "Paris", some "picnic",
          .ok ⟨none, none, none⟩⟩,
          ⟨some "KEY", "id-2", "t1", "2024-06-01", "Paris", some "picnic",
            .ok ⟨none, none, none⟩⟩]).2.filterMap id).Nodup :=
  ⟨by decide,
    (create_ids_unique_store_immutable
      [⟨some "KEY", "id-1", "t1", "2024-06-01", "Paris", some "picnic",
        .ok ⟨none, none, none⟩⟩,
        ⟨some "KEY", "id-2", "t1", "2024-06-01", "Paris", some "picnic",
          .ok ⟨none, none, none⟩⟩]
      [] (by decide) (by decide)).1⟩

/-- A concrete stored record used by concrete-instance theorems. -/
def sampleRecord : WeatherRecord :=
  ⟨"w1", "2024-06-01", "Paris", some "picnic", [], [], "t0"⟩

/-- C1 (documents the code bug): on a provider response with error code 615
for location "Paris", the handler does raise the intended
`HTTPException(400, "Location 'Paris' not found...")`, but `HTTPException`
is an `Exception`, so the blanket `except Exception` clause of
`create_weather_request` catches it and re-raises it as status 500 with
detail `"Unexpected error: 400: ..."`.  The response the client sees is
therefore a 500, not the 400 the spec states; the detail still names the
location, and the store is left unchanged. -/
theorem create_location_not_found_yields_500 :
    createWeather
      ⟨some "KEY", "id-1", "t1", "2024-06-01", "Paris", some "",
        .ok ⟨some ⟨some 615, none⟩, none, none⟩⟩
      [("w1", sampleRecord)]
      = ([("w1", sampleRecord)],
        .error ⟨500, "Unexpected error: 400: Location 'Paris' not found. Please check the spelling and try again."⟩) := by
  rfl

/-- C2: whenever a creation succeeds and returns an id, looking that id up
returns a record whose `date`, `location` and `notes` fields are exactly the
request's fields. -/
theorem create_then_lookup_roundtrip (inp : CreateInput) (store : Store)
    (wid : String) (h : (createWeather inp store).2 = Except.ok wid) :
    (getWeatherData (createWeather inp store).1 wid).toOption.map
      (fun r => (r.date, r.location, r.notes))
      = some (inp.date, inp.location, inp.notes) := by
  obtain ⟨body, hprov, herr, hwid, hstore⟩ := createWeather_ok_dest h
  rw [hstore, hwid]
  simp [getWeatherData, Store.find_cons, mkRecord, Except.toOption]

/-- Witness for C2 at a concrete successful creation. -/
theorem create_then_lookup_roundtrip_witness :
    (getWeatherData
        (createWeather
          ⟨some "KEY", "id-1", "t1", "2024-06-01", "Paris", some "picnic",
            .ok ⟨none, some [("temperature", "70")], some [("name", "Paris")]⟩⟩
          []).1 "id-1").toOption.map (fun r => (r.date, r.location, r.notes))
      = some ("2024-06-01", "Paris", some "picnic") :=
  create_then_lookup_roundtrip
    ⟨some "KEY", "id-1", "t1", "2024-06-01", "Paris", some "picnic",
      .ok ⟨none, some [("temperature", "70")], some [("name", "Paris")]⟩⟩
    [] "id-1" rfl

/-- C8: an identifier that was never returned by any successful creation in
the whole history of the process (all records come from `runCreates` starting
at the empty store) is absent from the store, so `GET /weather/{id}` answers
404 "Weather data not found"; the lookup handler is read-only by
construction. -/
theorem lookup_unissued_id_not_found (inputs : List CreateInput) (wid : String)
    (h : wid ∉ (runCreates [] inputs).2.filterMap id) :
    getWeatherData (runCreates [] inputs).1 wid
      = .error ⟨404, "Weather data not found"⟩ := by
  have hkeys : wid ∉ ((runCreates [] inputs).1).keys := by
    intro hmem
    rcases runCreates_mem_keys hmem with hold | hres
    · simp [Store.keys] at hold
    · exact h hres
  unfold getWeatherData
  rw [Store.find_eq_none_of_not_mem hkeys]

/-- Witness for C8: one successful creation issues "id-1"; "never-issued"
resolves to 404. -/
theorem lookup_unissued_id_not_found_witness :
    getWeatherData
      (runCreates []
        [⟨some "KEY", "id-1", "t1", "2024-06-01", "Paris", some "",
          .ok ⟨none, none, none⟩⟩]).1 "never-issued"
      = .error ⟨404, "Weather data not found"⟩ :=
  lookup_unissued_id_not_found
    [⟨some "KEY", "id-1", "t1", "2024-06-01", "Paris", some "",
      .ok ⟨none, none, none⟩⟩] "never-issued" (by decide)

/-- C10: when the JSON body omits `notes`, pydantic supplies the default
`""` (`notes: Optional[str] = ""`), so a successful creation stores
`notes = ""` — a present empty string, not `null`/absent — and lookup
returns it as such. -/
theorem omitted_notes_stored_as_empty (inp : CreateInput) (store : Store)
    (wid : String) (hnotes : inp.notes = parseNotes NotesField.absent)
    (h : (createWeather inp store).2 = Except.ok wid) :
    (getWeatherData (createWeather inp store).1 wid).toOption.map
      (fun r => r.notes) = some (some "") := by
  obtain ⟨body, hprov, herr, hwid, hstore⟩ := createWeather_ok_dest h
  rw [hstore, hwid]
  simp [getWeatherData, Store.find_cons, mkRecord, Except.toOption, hnotes,
    parseNotes]

/-- Witness for C10 at a concrete creation with the `notes` field absent. -/
theorem omitted_notes_stored_as_empty_witness :
    (getWeatherData
        (createWeather
          ⟨some "KEY", "id-1", "t1", "2024-06-01", "Paris",
            parseNotes NotesField.absent, .ok ⟨none, none, none⟩⟩
          []).1 "id-1").toOption.map (fun r => r.notes)
      = some (some "") :=
  omitted_notes_stored_as_empty
    ⟨some "KEY", "id-1", "t1", "2024-06-01", "Paris",
      parseNotes NotesField.absent, .ok ⟨none, none, none⟩⟩
    [] "id-1" rfl rfl

/-- C9: a summary-request frame with the `api_key` field missing makes the
handler send exactly one error message ("Gemini API key is required") and
`continue` to the next iteration of the receive loop; the branch runs before
the store test and before any Gemini call, so the reply is identical for
every store and every provider oracle. -/
theorem missing_api_key_error_and_no_consult (store store' : Store)
    (gen gen' : GenOracle) (weather_id : Option JsonVal) :
    processMessage store gen
        (.obj (some (.str "generate_summary")) weather_id none)
      = ([.summaryError "Gemini API key is required"], .cont)
    ∧ processMessage store gen
        (.obj (some (.str "generate_summary")) weather_id none)
      = processMessage store' gen'
          (.obj (some (.str "generate_summary")) weather_id none) := by
  constructor <;>
    simp [processMessage, fieldVal, isGenerateSummary, JsonVal.truthy]

/-- C7: on a summary request with a present api key and a stored
`weather_id`, if the Gemini call raises with message `e`, the handler sends
exactly one message — an error whose text is the provider text wrapped as
`"Error generating summary: " + e` — no result message, and the loop
continues. -/
theorem gen_failure_single_error_no_result (store : Store) (gen : GenOracle)
    (wid : String) (rec : WeatherRecord) (api_key : Option JsonVal) (e : String)
    (hfind : store.find wid = some rec)
    (hkey : (fieldVal api_key).truthy = true)
    (hgen : gen (buildPrompt rec.location rec.date rec.notes rec.weather_data)
      = .exc e) :
    processMessage store gen
        (.obj (some (.str "generate_summary")) (some (.str wid)) api_key)
      = ([.summaryError ("Error generating summary: " ++ e)], .cont) := by
  have hkey' : (api_key.getD JsonVal.null).truthy = true := hkey
  simp [processMessage, fieldVal, isGenerateSummary, JsonVal.hashable, hkey',
    hfind, generateWeatherSummary, hgen]

/-- Witness for C7 with a concrete record and a failing provider. -/
theorem gen_failure_single_error_no_result_witness :
    processMessage [("w1", sampleRecord)]
      (fun _ => GenOutcome.exc "provider down")
      (.obj (some (.str "generate_summary")) (some (.str "w1"))
        (some (.str "k")))
      = ([.summaryError "Error generating summary: provider down"], .cont) :=
  gen_failure_single_error_no_result [("w1", sampleRecord)]
    (fun _ => GenOutcome.exc "provider down") "w1" sampleRecord
    (some (.str "k")) "provider down" (by decide) rfl rfl

/-- C3 counterexample: when the Gemini response has empty text,
`generate_weather_summary` returns the fallback sentence normally (lines
108-111), so `websocket_endpoint` wraps it in a `summary_result` frame — a
result message, not the error message the spec describes. -/
theorem empty_gen_output_yields_result_message :
    processMessage [("w1", sampleRecord)] (fun _ => GenOutcome.output "")
      (.obj (some (.str "generate_summary")) (some (.str "w1"))
        (some (.str "k")))
      = ([.summaryResult "Unable to generate weather summary at this time." "w1"],
        .cont)
    ∧ ServerMsg.isError
        (.summaryResult "Unable to generate weather summary at this time." "w1")
      = false :=
  ⟨by decide, rfl⟩

/-- C3 as amended: on empty provider output the server emits exactly one
`summary_result` message whose summary text is the fixed fallback phrase
"Unable to generate weather summary at this time.", and continues awaiting
further messages. -/
theorem empty_gen_output_fallback_result (store : Store) (gen : GenOracle)
    (wid : String) (rec : WeatherRecord) (api_key : Option JsonVal)
    (hfind : store.find wid = some rec)
    (hkey : (fieldVal api_key).truthy = true)
    (hgen : gen (buildPrompt rec.location rec.date rec.notes rec.weather_data)
      = .output "") :
    processMessage store gen
        (.obj (some (.str "generate_summary")) (some (.str wid)) api_key)
      = ([.summaryResult "Unable to generate weather summary at this time." wid],
        .cont) := by
  have hkey' : (api_key.getD JsonVal.null).truthy = true := hkey
  simp [processMessage, fieldVal, isGenerateSummary, JsonVal.hashable, hkey',
    hfind, generateWeatherSummary, hgen]

/-- Witness for the amended C3 at a concrete store and oracle. -/
theorem empty_gen_output_fallback_result_witness :
    processMessage [("w1", sampleRecord)] (fun _ => GenOutcome.output "")
      (.obj (some (.str "generate_summary")) (some (.str "w1"))
        (some (.str "kk")))
      = ([.summaryResult "Unable to generate weather summary at this time." "w1"],
        .cont) :=
  empty_gen_output_fallback_result [("w1", sampleRecord)]
    (fun _ => GenOutcome.output "") "w1" sampleRecord (some (.str "kk"))
    (by decide) rfl rfl

/-- C4 counterexample: a frame whose payload is not a JSON object makes
`json.loads` (or `.get` on a non-dict) raise; only `WebSocketDisconnect` is
caught outside the `while` loop, so the exception escapes the handler and the
session ends — message content alone closed the channel. -/
theorem malformed_message_ends_session :
    runSession [] (fun _ => GenOutcome.exc "x") [.malformed] = ([], .crashed) :=
  rfl

/-- C4 as amended: message content ends the session exactly when a frame is
not a JSON object (malformed JSON / non-object payload), or is a summary
request passing the api-key check whose `weather_id` value is unhashable (a
JSON array or object: `weather_id not in weather_storage` raises `TypeError`,
uncaught inside the loop).  For every other content — unknown kinds,
missing fields, arbitrary hashable values — failures are reported in-band on
the same channel and the receive loop continues; apart from these contents,
only client disconnect or channel failure ends the session. -/
theorem session_ends_iff_crashing_frame (store : Store) (gen : GenOracle)
    (msgs : List ClientMsg) :
    (runSession store gen msgs).2 = .crashed
      ↔ ∃ m ∈ msgs, ClientMsg.crashes m = true := by
  induction msgs with
  | nil => simp [runSession]
  | cons m rest ih =>
    have hst := processMessage_snd store gen m
    rcases hp : processMessage store gen m with ⟨out, st⟩
    rw [hp] at hst
    by_cases hc : ClientMsg.crashes m
    · rw [if_pos hc] at hst
      subst hst
      simp only [runSession, hp]
      simp [hc]
    · rw [if_neg hc] at hst
      subst hst
      rcases hr : runSession store gen rest with ⟨out', st'⟩
      rw [hr] at ih
      simp only [runSession, hp, hr]
      simpa [hc] using ih

set_option maxRecDepth 10000 in
/-- C6 counterexample: with every weather attribute missing, the code's
template and the spec's template ("missing attributes render as N/A",
wind direction included) produce different prompts — the code renders a
missing wind direction as the empty string (`get('wind_direction', '')`). -/
theorem prompt_wind_direction_differs_from_spec_template :
    buildPrompt "Paris" "2024-06-01" (some "picnic") []
      ≠ buildPromptSpec "Paris" "2024-06-01" (some "picnic") [] := by
  decide

set_option maxRecDepth 10000 in
/-- C6 as amended: the prompt is built deterministically by the fixed
template, and it agrees with the spec's template whenever the wind-direction
attribute is present; with every attribute missing, all listed attributes
except wind direction render as "N/A", wind direction renders as the empty
string, and the absent day/night flag renders as "Nighttime". -/
theorem prompt_template_matches_spec_except_wind_direction :
    (∀ (loc date : String) (notes : Option String)
        (wi : List (String × String)) (v : String),
      wi.lookup "wind_direction" = some v →
      buildPrompt loc date notes wi = buildPromptSpec loc date notes wi)
    ∧ buildPrompt "Paris" "2024-06-01" (some "picnic") []
      = "\n        Generate a concise, friendly weather summary for Paris on 2024-06-01.\n        \n        Weather conditions:\n        - Temperature: N/A°F\n        - Feels like: N/A°F\n        - Conditions: N/A\n        - Humidity: N/A%\n        - Wind: N/A mph  (N/A°)\n        - Visibility: N/A miles\n        - Pressure: N/A mb\n        - UV Index: N/A\n        - Cloud Cover: N/A%\n        - Precipitation: N/A mm\n        - Time of Day: Nighttime\n        \n        Location: N/A, N/A, N/A\n        Coordinates: N/A, N/A\n        Timezone: N/A\n        \n        User notes: picnic\n        \n        Please provide a 3-4 sentence summary that's conversational and helpful for planning outdoor activities, including insights about the weather conditions and any notable factors.\n        " := by
  constructor
  · intro loc date notes wi v hv
    simp only [buildPrompt, buildPromptSpec, pyGet, hv, Option.getD_some]
  · decide

/-- Witness for the amended C6: a present wind direction makes the code's
prompt equal the spec's. -/
theorem prompt_template_matches_spec_witness :
    buildPrompt "Paris" "2024-06-01" (some "picnic") [("wind_direction", "NW")]
      = buildPromptSpec "Paris" "2024-06-01" (some "picnic")
          [("wind_direction", "NW")] :=
  prompt_template_matches_spec_except_wind_direction.1 "Paris" "2024-06-01"
    (some "picnic") [("wind_direction", "NW")] "NW" rfl

end WeatherSystem
